import Mathlib

/-!
Shallow embedding of the PropertySpotter lead workflow (Django project).

The embedding translates the relevant parts of the source into executable
Lean definitions:

* the data models `CustomUser`, `Property`, `Lead`, `Commission`,
  `ContactEntry` become structures whose fields mirror the model fields
  used by the endpoints under scrutiny (monetary DecimalField values become
  exact rationals, nullable fields become Option, timestamps become Nat
  instants passed in explicitly);
* the REST view methods become pure functions from the request context
  (requesting user, looked-up lead, validated payload, transport outcomes
  of outbound notifications) to a result record holding the HTTP status
  code and the post-request database state;
* Python truthiness of strings and of nullable decimals is modelled
  explicitly, and Python attribute errors become an error type.

HTTP status codes follow Django REST Framework: 200/201 success,
400 ValidationError, 403 PermissionDenied, 500 unhandled exception.
-/

/-- Python truthiness of a string: nonempty strings are truthy. -/
def pyTruthyStr (s : String) : Bool := !(s == "")

/-- Python truthiness of a nullable string (None and the empty string are falsy). -/
def pyTruthyOptStr : Option String → Bool
  | none => false
  | some s => !(s == "")

/-- Python truthiness of a nullable Decimal field: None and 0 are falsy. -/
def pyFalsyDecimal : Option ℚ → Bool
  | none => true
  | some q => q == 0

/-- A user record (users/models.py, CustomUser): primary key, role string,
optional agency link, phone and name fields used by the lead endpoints. -/
structure User where
  id : Nat
  role : String
  agency : Option Nat
  phone : String
  first_name : String
  last_name : String
deriving Repr, DecidableEq

/-- A property record (properties/models.py, Property): the fields written by
the lead acceptance and completion endpoints. -/
structure Property where
  id : Nat
  title : String
  description : String
  property_type : String
  status : String
  price : ℚ
  address : String
  city : String
  state : String
  zip_code : String
  owner : Nat
deriving Repr, DecidableEq

/-- A lead record (leads/models.py, Lead). Foreign keys to the linked
property, spotter and agent are carried as embedded records so a single
value captures the database state the endpoints read and write;
assigned_agency is carried as an agency id. -/
structure Lead where
  id : Nat
  first_name : String
  last_name : String
  email : Option String
  phone : String
  street_address : Option String
  suburb : Option String
  status : String
  notes_text : String
  is_accepted : Bool
  preferred_agent : String
  property : Option Property
  spotter : Option User
  agent : Option User
  assigned_agency : Option Nat
  agreed_commission_amount : Option ℚ
  spotter_commission_amount : Option ℚ
  platform_fee : Option ℚ
  assigned_at : Option Nat
  accepted_at : Option Nat
  closed_at : Option Nat
deriving Repr, DecidableEq

/-- Lead.calculate_commissions (leads/models.py lines 84-98): when
agreed_commission_amount is not None, write 5 percent of it to
spotter_commission_amount and 2.5 percent to platform_fee and save;
when it is None, do nothing. Python Decimal multiplication is exact at
these operand sizes, so the arithmetic is modelled over the rationals.
The source also computes an unused local total_deduction of 7.5 percent,
which has no effect on the record. -/
def Lead.calculate_commissions (l : Lead) : Lead :=
  match l.agreed_commission_amount with
  | some a =>
      { l with
        spotter_commission_amount := some (a * (5 / 100 : ℚ)),
        platform_fee := some (a * (25 / 1000 : ℚ)) }
  | none => l

/-- Lead.assign_to_agent (leads/models.py lines 103-110): the model helper
that performs a full assignment, including the status transition. Note
that no view in leads/views.py calls this method. -/
def Lead.assign_to_agent (l : Lead) (agent : User) (now : Nat) : Lead :=
  { l with
    agent := some agent,
    assigned_agency := agent.agency,
    status := "assigned",
    assigned_at := some now,
    is_accepted := false,
    accepted_at := none }

/-- Lead.accept_lead (leads/models.py lines 112-116). -/
def Lead.accept_lead (l : Lead) (now : Nat) : Lead :=
  { l with status := "accepted", is_accepted := true, accepted_at := some now }

/-- Lead.reject_lead (leads/models.py lines 118-122). -/
def Lead.reject_lead (l : Lead) : Lead :=
  { l with status := "rejected", is_accepted := false, accepted_at := none }

/-- Lead.close_lead (leads/models.py lines 124-127). -/
def Lead.close_lead (l : Lead) (now : Nat) : Lead :=
  { l with status := "closed", closed_at := some now }

/-- Python runtime errors surfaced by the embedded code. -/
inductive PyError where
  | attributeError (target : String) (attr : String)
deriving Repr, DecidableEq

/-- Attribute lookup on a Lead restricted to its Decimal-valued fields
(the only kind of attribute Commission.save reads). The Lead model
declares exactly the three decimal fields below (leads/models.py lines
73-75); any other name yields none, that is, an AttributeError. -/
def Lead.decimalAttr (l : Lead) (name : String) : Option (Option ℚ) :=
  if name = "agreed_commission_amount" then some l.agreed_commission_amount
  else if name = "spotter_commission_amount" then some l.spotter_commission_amount
  else if name = "platform_fee" then some l.platform_fee
  else none

/-- A commission record (commissions/models.py, Commission): the fields
read by its save method, with the lead foreign key embedded. The field
spotter_commission_amount is an Option because a freshly built model
instance may not have it set yet. -/
structure Commission where
  lead : Lead
  spotter : Nat
  agent : Nat
  total_commission_amount : ℚ
  spotter_commission_amount : Option ℚ
  status : String
  payment_reference : String
deriving Repr, DecidableEq

/-- Commission.save (commissions/models.py lines 51-58): when
spotter_commission_amount is falsy it evaluates
self.lead.spotter_commission_percentage, an attribute the Lead model does
not define, so the lookup raises AttributeError before the row is
written; otherwise the guard short-circuits and the record is saved
unchanged. -/
def Commission.save (c : Commission) : Except PyError Commission :=
  if pyFalsyDecimal c.spotter_commission_amount then
    match c.lead.decimalAttr "spotter_commission_percentage" with
    | none => .error (.attributeError "Lead" "spotter_commission_percentage")
    | some pct =>
        if pyFalsyDecimal pct then .ok c
        else
          .ok { c with
                spotter_commission_amount :=
                  some (c.total_commission_amount * (pct.getD 0 / 100)) }
  else .ok c

/-- A parsed JSON value, as returned by response.json() in the requests
library. -/
inductive Json where
  | null
  | bool (b : Bool)
  | num (q : ℚ)
  | str (s : String)
  | arr (xs : List Json)
  | obj (fields : List (String × Json))

/-- Key lookup in the field list of a JSON object. -/
def Json.lookupField : List (String × Json) → String → Option Json
  | [], _ => none
  | (k, v) :: rest, key => if k = key then some v else Json.lookupField rest key

/-- The dict.get method with a default, applied to a parsed JSON value.
Values that parse to anything other than a JSON object are not Python
dicts and have no get method, so the call raises AttributeError. -/
def Json.dictGet (j : Json) (key : String) (dflt : Json) : Except PyError Json :=
  match j with
  | .obj fields => .ok ((Json.lookupField fields key).getD dflt)
  | _ => .error (.attributeError "json" "get")

/-- Outcome of the outbound HTTP POST to the Cloudflare Turnstile
verification service: either the request raises
requests.RequestException (which in current requests also covers JSON
decoding failures of the body), or it yields a parsed JSON reply. -/
inductive TurnstileHttp where
  | requestError
  | reply (body : Json)

/-- verify_turnstile_token (security_handler/turnstile.py lines 4-23):
POST to the verification service inside a try block; on
requests.RequestException return False; otherwise return
response.json().get("success", False). -/
def verify_turnstile_token (o : TurnstileHttp) : Except PyError Json :=
  match o with
  | .requestError => .ok (.bool false)
  | .reply body => body.dictGet "success" (.bool false)

/-- The amended description of verify_turnstile_token: False on a request
failure, the value of the success field (defaulting to False) when the
reply is a JSON object, and an uncaught AttributeError when the reply is
valid JSON but not an object. -/
def verifyTurnstileAmendedSpec (o : TurnstileHttp) : Except PyError Json :=
  match o with
  | .requestError => .ok (.bool false)
  | .reply (.obj fields) => .ok ((Json.lookupField fields "success").getD (.bool false))
  | .reply _ => .error (.attributeError "json" "get")

/-- Transport outcome of one outbound Twilio WhatsApp send attempt. -/
inductive TwilioOutcome where
  | delivered
  | sendFailure (msg : String)
deriving Repr, DecidableEq

/-- Modelled from the spec: the function send_message of
updates/twilio_handler.py (imported by leads/views.py as
send_whatsapp_message) is not among the provided sources; only its
callers are. The spec states that notification-send failures
(email/WhatsApp) are caught and logged but do not roll back or fail the
primary database operation, and the one caller that inspects the result
treats it as a success flag, so the send is modelled as a total function
of the transport outcome that reports success as a Bool and never
raises. -/
def send_message (outcome : TwilioOutcome) : Bool :=
  match outcome with
  | .delivered => true
  | .sendFailure _ => false

/-- Outcome of one outbound notification email (django send_mail with
fail_silently False raises on failure). -/
inductive EmailOutcome where
  | delivered
  | sendError (msg : String)
deriving Repr, DecidableEq

/-- IsSpotter.has_permission (leads/views.py lines 28-33), for an
authenticated user. -/
def IsSpotter.has_permission (u : User) : Bool :=
  u.role == "Spotter"

/-- IsAgencyMember.has_permission (leads/views.py lines 35-50), for an
authenticated user. -/
def IsAgencyMember.has_permission (u : User) : Bool :=
  u.role == "Admin" ||
    ((u.role == "Agent" || u.role == "Agency_Admin") && u.agency.isSome)

/-- Whether a lead has a spotter with a truthy phone number, the guard
used before the WhatsApp sends in the lead views. -/
def Lead.spotterHasPhone (l : Lead) : Bool :=
  match l.spotter with
  | some u => pyTruthyStr u.phone
  | none => false

/-- Result of an update endpoint: HTTP status code, the lead row after
the request (unchanged on error paths), and the success flags of the
WhatsApp sends that were attempted. -/
structure UpdateResult where
  code : Nat
  lead : Lead
  notified : List Bool
deriving Repr, DecidableEq

/-- Result of the acceptance endpoint: HTTP status code, the lead row
after the request, and the list of Property rows the request created. -/
structure AcceptResult where
  code : Nat
  lead : Lead
  created : List Property
deriving Repr, DecidableEq

/-- Result of the submission endpoint: HTTP status code, the created
lead row if any, the missing_fields list of the 400 body, and the
success flags of the WhatsApp sends that were attempted. -/
structure SubmitResult where
  code : Nat
  lead : Option Lead
  missing_fields : List String
  notified : List Bool
deriving Repr, DecidableEq

/-- Result of the contact form endpoint: HTTP status code and whether a
ContactEntry row was stored. -/
structure ContactResult where
  code : Nat
  entry_saved : Bool
deriving Repr, DecidableEq

/-- The payload of a lead submission request: request.data.get for each
field, none when the key is absent. -/
structure LeadSubmissionData where
  first_name : Option String
  last_name : Option String
  email : Option String
  phone : Option String
  street_address : Option String
  suburb : Option String
  notes_text : Option String
  preferred_agent : Option String
deriving Repr, DecidableEq

/-- lead_data.get on the extracted submission payload
(leads/views.py lines 213-222). -/
def LeadSubmissionData.get (d : LeadSubmissionData) (f : String) : Option String :=
  if f = "first_name" then d.first_name
  else if f = "last_name" then d.last_name
  else if f = "email" then d.email
  else if f = "phone" then d.phone
  else if f = "street_address" then d.street_address
  else if f = "suburb" then d.suburb
  else none

/-- The required_fields list of LeadSubmissionView.create
(leads/views.py line 225). -/
def requiredLeadFields : List String :=
  ["first_name", "last_name", "phone", "street_address", "suburb"]

/-- The missing_fields comprehension of LeadSubmissionView.create
(leads/views.py line 226): required fields whose value is falsy. -/
def missingLeadFields (d : LeadSubmissionData) : List String :=
  requiredLeadFields.filter (fun f => !(pyTruthyOptStr (d.get f)))

/-- LeadSubmissionView.create (leads/views.py lines 204-321).
Permission classes IsAuthenticated and IsSpotter run first. Missing
required fields give 400 with the missing_fields list and no row.
Otherwise a Lead row is created with the model default status "new" and
spotter set to the requesting user, a WhatsApp notification to the
spotter is attempted when the user has a phone (failures swallowed), a
WhatsApp notification to the manager number is attempted, and 201 is
returned. Image handling is omitted: it touches only LeadImage rows.
newLeadId is the database-assigned primary key and now the insertion
instant. -/
def LeadSubmissionView.create (user : User) (d : LeadSubmissionData)
    (newLeadId : Nat) (spotterMsg managerMsg : TwilioOutcome) : SubmitResult :=
  if !(IsSpotter.has_permission user) then
    { code := 403, lead := none, missing_fields := [], notified := [] }
  else if missingLeadFields d ≠ [] then
    { code := 400, lead := none, missing_fields := missingLeadFields d, notified := [] }
  else
    let lead : Lead :=
      { id := newLeadId
        first_name := d.first_name.getD ""
        last_name := d.last_name.getD ""
        email := d.email
        phone := d.phone.getD ""
        street_address := d.street_address
        suburb := d.suburb
        status := "new"
        notes_text := d.notes_text.getD ""
        is_accepted := false
        preferred_agent := d.preferred_agent.getD ""
        property := none
        spotter := some user
        agent := none
        assigned_agency := none
        agreed_commission_amount := none
        spotter_commission_amount := none
        platform_fee := none
        assigned_at := none
        accepted_at := none
        closed_at := none }
    { code := 201
      lead := some lead
      missing_fields := []
      notified :=
        (if pyTruthyStr user.phone then [send_message spotterMsg] else []) ++
          [send_message managerMsg] }

/-- LeadAssignmentView.update (leads/views.py lines 395-499).
Permission classes IsAuthenticated and IsAgencyMember run first; then a
non-Admin whose agency differs from the assigned agency of the lead is
refused with 403. agent_lookup is the database lookup of the requested
agent_id restricted to roles Agent and Agency_Admin
(LeadAssignmentSerializer.validate_agent_id); a failed lookup or an
agent of a different agency makes the serializer invalid, and the view
then evaluates serializers.ValidationError with the name serializers
unbound in leads/views.py, so the request ends in an unhandled NameError,
status 500. On success the view sets lead.agent (and notes_text when
notes is truthy) and saves: it does not call Lead.assign_to_agent and
writes neither status nor assigned_agency nor assigned_at. WhatsApp
notifications to the spotter and to the manager number are attempted
when the spotter has a phone, failures swallowed. -/
def LeadAssignmentView.update (user : User) (lead : Lead)
    (agent_lookup : Option User) (notes : Option String)
    (spotterMsg agentMsg : TwilioOutcome) : UpdateResult :=
  if !(IsAgencyMember.has_permission user) then
    { code := 403, lead := lead, notified := [] }
  else if user.role ≠ "Admin" ∧ user.agency ≠ lead.assigned_agency then
    { code := 403, lead := lead, notified := [] }
  else
    match agent_lookup with
    | none => { code := 500, lead := lead, notified := [] }
    | some agent =>
      if !(agent.role == "Agent" || agent.role == "Agency_Admin") then
        { code := 500, lead := lead, notified := [] }
      else if agent.agency ≠ lead.assigned_agency then
        { code := 500, lead := lead, notified := [] }
      else
        { code := 200
          lead :=
            { lead with
              agent := some agent
              notes_text :=
                if pyTruthyOptStr notes then notes.getD "" else lead.notes_text }
          notified :=
            if lead.spotterHasPhone then
              [send_message spotterMsg, send_message agentMsg]
            else [] }

/-- LeadDetailView.get_object (leads/views.py lines 509-539): Admin sees
any lead; a Spotter only a lead they submitted; an Agent or Agency_Admin
only a lead assigned to their agency; every other role is refused. The
error value is the HTTP status of the PermissionDenied response. The
endpoint performs no write. -/
def LeadDetailView.get_object (user : User) (lead : Lead) : Except Nat Lead :=
  if user.role = "Admin" then .ok lead
  else if user.role = "Spotter" then
    if lead.spotter.map User.id ≠ some user.id then .error 403 else .ok lead
  else if user.role = "Agent" ∨ user.role = "Agency_Admin" then
    if lead.assigned_agency ≠ user.agency then .error 403 else .ok lead
  else .error 403

/-- LeadAcceptanceView.update (leads/views.py lines 654-746) with
LeadAcceptanceSerializer (leads/serializers.py lines 206-224).
get_object refuses a non-Admin who is not the assigned agent with 403.
Validation: the action must be accept or reject; a closed lead is
refused; accept is refused when is_accepted is already true; reject is
refused when is_accepted is already false. On accept a Property row is
created from placeholder data, linked to the lead, and
Lead.accept_lead runs; on reject Lead.reject_lead runs; in both cases a
truthy notes value overwrites notes_text. newPropId is the
database-assigned key of the created property and now the request
instant. -/
def LeadAcceptanceView.update (user : User) (lead : Lead) (action : String)
    (notes : String) (newPropId : Nat) (now : Nat) : AcceptResult :=
  if user.role ≠ "Admin" ∧ lead.agent.map User.id ≠ some user.id then
    { code := 403, lead := lead, created := [] }
  else if !(action == "accept" || action == "reject") then
    { code := 400, lead := lead, created := [] }
  else if lead.status = "closed" then
    { code := 400, lead := lead, created := [] }
  else if action = "accept" ∧ lead.is_accepted = true then
    { code := 400, lead := lead, created := [] }
  else if action = "reject" ∧ lead.is_accepted = false then
    { code := 400, lead := lead, created := [] }
  else if action = "accept" then
    let prop : Property :=
      { id := newPropId
        title := "Property for " ++ lead.first_name ++ " " ++ lead.last_name
        description := "Property created from lead " ++ toString lead.id ++ ". " ++ notes
        property_type := "residential"
        status := "available"
        price := 0
        address := "To be filled by agent"
        city := "To be filled by agent"
        state := "To be filled by agent"
        zip_code := "0000"
        owner := user.id }
    { code := 200
      lead :=
        Lead.accept_lead
          { lead with
            property := some prop
            notes_text := if pyTruthyStr notes then notes else lead.notes_text } now
      created := [prop] }
  else
    { code := 200
      lead :=
        Lead.reject_lead
          { lead with
            notes_text := if pyTruthyStr notes then notes else lead.notes_text }
      created := [] }

/-- LeadCompletionView.update (leads/views.py lines 878-961) with
LeadCompletionSerializer (leads/serializers.py lines 325-343).
get_object refuses a non-Admin who is not the assigned agent with 403.
Validation: final_price is a required decimal (assumed provided and
valid here), the lead must have a linked property, and the lead must not
already be closed. On success the linked property gets status sold and
price final_price, the lead gets status closed and closed_at now, a
truthy notes value overwrites notes_text, and a WhatsApp notification to
the spotter is attempted when the spotter has a phone. -/
def LeadCompletionView.update (user : User) (lead : Lead) (final_price : ℚ)
    (notes : String) (now : Nat) (msg : TwilioOutcome) : UpdateResult :=
  if user.role ≠ "Admin" ∧ lead.agent.map User.id ≠ some user.id then
    { code := 403, lead := lead, notified := [] }
  else
    match lead.property with
    | none => { code := 400, lead := lead, notified := [] }
    | some p =>
      if lead.status = "closed" then
        { code := 400, lead := lead, notified := [] }
      else
        { code := 200
          lead :=
            { lead with
              property := some { p with status := "sold", price := final_price }
              status := "closed"
              closed_at := some now
              notes_text := if pyTruthyStr notes then notes else lead.notes_text }
          notified := if lead.spotterHasPhone then [send_message msg] else [] }

/-- LeadFailureView.update (leads/views.py lines 963-1046) with
LeadFailureSerializer (leads/serializers.py lines 345-360). get_object
refuses a non-Admin who is not the assigned agent with 403. Validation:
reason is a required non-blank string and the lead must not already be
closed. On success the lead gets status closed, closed_at now and a
notes_text built from the failure reason, and a WhatsApp notification to
the spotter is attempted when the spotter has a phone. -/
def LeadFailureView.update (user : User) (lead : Lead) (reason : String)
    (notes : String) (now : Nat) (msg : TwilioOutcome) : UpdateResult :=
  if user.role ≠ "Admin" ∧ lead.agent.map User.id ≠ some user.id then
    { code := 403, lead := lead, notified := [] }
  else if !(pyTruthyStr reason) then
    { code := 400, lead := lead, notified := [] }
  else if lead.status = "closed" then
    { code := 400, lead := lead, notified := [] }
  else
    { code := 200
      lead :=
        { lead with
          status := "closed"
          closed_at := some now
          notes_text :=
            "Lead marked as failed. Reason: " ++ reason ++
              (if pyTruthyStr notes then "\nAdditional notes: " ++ notes else "") }
      notified := if lead.spotterHasPhone then [send_message msg] else [] }

/-- The payload of a contact form request (contact/serializers.py:
ContactEntrySerializer over name, email, message). -/
structure ContactData where
  name : Option String
  email : Option String
  message : Option String
deriving Repr, DecidableEq

/-- ContactEntrySerializer validity: the three writable fields are
required and non-blank (the EmailField format check is abstracted to
presence, which is all the claims here depend on). -/
def contactDataValid (d : ContactData) : Bool :=
  pyTruthyOptStr d.name && pyTruthyOptStr d.email && pyTruthyOptStr d.message

/-- ContactEntryView.create (contact/views.py lines 17-68): invalid data
gives 400 and no row. Otherwise the entry is saved and a notification
email is sent with fail_silently False inside a try block whose except
branch, reached when the send raises after the save, still returns the
201 success response without undoing the save. -/
def ContactEntryView.create (d : ContactData) (email : EmailOutcome) : ContactResult :=
  if !(contactDataValid d) then { code := 400, entry_saved := false }
  else
    match email with
    | .delivered => { code := 201, entry_saved := true }
    | .sendError _ => { code := 201, entry_saved := true }

/-- A spotter user fixture. -/
def spotterUser : User :=
  { id := 1, role := "Spotter", agency := none, phone := "+27000000001",
    first_name := "Sam", last_name := "Spotter" }

/-- An agent user fixture in agency 7. -/
def agentUser : User :=
  { id := 2, role := "Agent", agency := some 7, phone := "+27000000002",
    first_name := "Alice", last_name := "Agent" }

/-- An admin user fixture. -/
def adminUser : User :=
  { id := 3, role := "Admin", agency := none, phone := "",
    first_name := "Root", last_name := "Admin" }

/-- An agent user fixture in agency 8. -/
def otherAgent : User :=
  { id := 4, role := "Agent", agency := some 8, phone := "",
    first_name := "Oscar", last_name := "Other" }

/-- A freshly submitted lead fixture assigned to agency 7. -/
def baseLead : Lead :=
  { id := 10, first_name := "Thabo", last_name := "M", email := none,
    phone := "+27111111111", street_address := some "1 Main Rd",
    suburb := some "Claremont", status := "new", notes_text := "",
    is_accepted := false, preferred_agent := "", property := none,
    spotter := some spotterUser, agent := none, assigned_agency := some 7,
    agreed_commission_amount := none, spotter_commission_amount := none,
    platform_fee := none, assigned_at := none, accepted_at := none,
    closed_at := none }

/-- C1: the claim states that after a successful assignment the lead has the
requested agent and status assigned. On the code, an Admin assigning a
valid agent of the assigned agency to a lead with status new gets the
success response with the agent set, but the status stays new: the view
only writes lead.agent and never performs the status transition (it does
not call Lead.assign_to_agent). -/
theorem C1_assignment_status_not_assigned :
    (LeadAssignmentView.update adminUser baseLead (some agentUser) none
        .delivered .delivered).code = 200 ∧
    (LeadAssignmentView.update adminUser baseLead (some agentUser) none
        .delivered .delivered).lead.agent = some agentUser ∧
    (LeadAssignmentView.update adminUser baseLead (some agentUser) none
        .delivered .delivered).lead.status = "new" ∧
    (LeadAssignmentView.update adminUser baseLead (some agentUser) none
        .delivered .delivered).lead.status ≠ "assigned" := by
  refine ⟨rfl, rfl, rfl, ?_⟩
  decide

/-- C4: for every lead, calculate_commissions writes exactly 5 percent of
the agreed commission amount to spotter_commission_amount and exactly
2.5 percent to platform_fee when the agreed amount is set, and leaves
the record untouched when it is null. -/
theorem C4_calculate_commissions_exact (l : Lead) :
    (∀ a : ℚ, l.agreed_commission_amount = some a →
        (Lead.calculate_commissions l).spotter_commission_amount =
          some (a * (5 / 100)) ∧
        (Lead.calculate_commissions l).platform_fee = some (a * (25 / 1000))) ∧
    (l.agreed_commission_amount = none → Lead.calculate_commissions l = l) := by
  constructor
  · intro a ha
    simp [Lead.calculate_commissions, ha]
  · intro h
    simp [Lead.calculate_commissions, h]

/-- C4 witness: the commission split computed on a concrete lead with an
agreed commission amount of 1000. -/
theorem C4_calculate_commissions_witness :
    (Lead.calculate_commissions
        { baseLead with agreed_commission_amount := some 1000 }).spotter_commission_amount =
      some (1000 * (5 / 100)) ∧
    (Lead.calculate_commissions
        { baseLead with agreed_commission_amount := some 1000 }).platform_fee =
      some (1000 * (25 / 1000)) :=
  (C4_calculate_commissions_exact
      { baseLead with agreed_commission_amount := some 1000 }).1 1000 rfl

/-- C9: Commission.save raises AttributeError before any write whenever
spotter_commission_amount is falsy, because the guard then reads the
attribute spotter_commission_percentage which the Lead model does not
define; when spotter_commission_amount is already set (truthy), save
succeeds and leaves the record unchanged. -/
theorem C9_commission_save (c : Commission) :
    (pyFalsyDecimal c.spotter_commission_amount = true →
        Commission.save c =
          .error (.attributeError "Lead" "spotter_commission_percentage")) ∧
    (pyFalsyDecimal c.spotter_commission_amount = false →
        Commission.save c = .ok c) := by
  constructor
  · intro h
    simp [Commission.save, h, Lead.decimalAttr]
  · intro h
    simp [Commission.save, h]

/-- An unsaved commission fixture with no spotter amount set. -/
def commissionUnset : Commission :=
  { lead := baseLead, spotter := 1, agent := 2,
    total_commission_amount := 10000, spotter_commission_amount := none,
    status := "pending", payment_reference := "" }

/-- A commission fixture whose spotter amount is already set. -/
def commissionSet : Commission :=
  { commissionUnset with spotter_commission_amount := some 500 }

/-- C9 witness: saving a concrete commission without a spotter amount
raises the attribute error, and saving one with the amount set succeeds
unchanged. -/
theorem C9_commission_save_witness :
    Commission.save commissionUnset =
      .error (.attributeError "Lead" "spotter_commission_percentage") ∧
    Commission.save commissionSet = .ok commissionSet :=
  ⟨(C9_commission_save commissionUnset).1 rfl,
   (C9_commission_save commissionSet).2 rfl⟩

/-- C10 counterexample: the claim states the function is total and never
propagates an exception whenever the reply lacks a success field. When
the verification service replies with a body that is valid JSON but not
an object (here the JSON string ok), the reply has no success field and
the dict.get call raises an AttributeError that nothing catches, so the
function neither returns False nor any value at all. -/
theorem C10_counterexample_nonobject_reply :
    verify_turnstile_token (.reply (.str "ok")) =
      .error (.attributeError "json" "get") ∧
    verify_turnstile_token (.reply (.str "ok")) ≠ .ok (.bool false) := by
  refine ⟨rfl, ?_⟩
  intro h
  exact Except.noConfusion h

/-- C10 amended: verify_turnstile_token returns False when the HTTP
request fails (including JSON decoding failures, which raise a
RequestException) and when the reply is a JSON object without a success
field; when the reply is an object with a success field it returns that
field verbatim, so it yields True exactly when the service replied with
success true; but when the reply is valid JSON that is not an object, an
AttributeError propagates. -/
theorem C10_turnstile_amended (o : TurnstileHttp) :
    verify_turnstile_token o = verifyTurnstileAmendedSpec o := by
  cases o with
  | requestError => rfl
  | reply body => cases body <;> rfl

/-- C2: on a lead that is not closed and not yet accepted, an accept
request by the assigned agent succeeds, creates exactly one Property row
which becomes the lead property link, and moves the lead to status
accepted with is_accepted true; a second accept request on the resulting
lead is refused with a validation error and creates no Property. -/
theorem C2_accept_exactly_once (user : User) (lead : Lead)
    (notes notes2 : String) (pid now pid2 now2 : Nat)
    (hagent : lead.agent.map User.id = some user.id)
    (hacc : lead.is_accepted = false)
    (hclosed : lead.status ≠ "closed") :
    (LeadAcceptanceView.update user lead "accept" notes pid now).code = 200 ∧
    (LeadAcceptanceView.update user lead "accept" notes pid now).created.length = 1 ∧
    (LeadAcceptanceView.update user lead "accept" notes pid now).lead.property =
      (LeadAcceptanceView.update user lead "accept" notes pid now).created.head? ∧
    (LeadAcceptanceView.update user lead "accept" notes pid now).lead.status =
      "accepted" ∧
    (LeadAcceptanceView.update user lead "accept" notes pid now).lead.is_accepted =
      true ∧
    (LeadAcceptanceView.update user
        (LeadAcceptanceView.update user lead "accept" notes pid now).lead
        "accept" notes2 pid2 now2).code = 400 ∧
    (LeadAcceptanceView.update user
        (LeadAcceptanceView.update user lead "accept" notes pid now).lead
        "accept" notes2 pid2 now2).created = [] := by
  simp [LeadAcceptanceView.update, Lead.accept_lead, hagent, hacc, hclosed]

/-- A lead fixture assigned to the agent of agency 7. -/
def assignedLead : Lead :=
  { baseLead with
    status := "assigned"
    agent := some agentUser
    assigned_at := some 50 }

/-- C2 witness: the assigned agent accepts a concrete assigned lead once
with success and a single created property, and a second accept on the
result is refused. -/
theorem C2_accept_exactly_once_witness :
    (LeadAcceptanceView.update agentUser assignedLead "accept" "" 70 100).code =
      200 ∧
    (LeadAcceptanceView.update agentUser assignedLead "accept" "" 70 100).created.length =
      1 ∧
    (LeadAcceptanceView.update agentUser
        (LeadAcceptanceView.update agentUser assignedLead "accept" "" 70 100).lead
        "accept" "" 71 101).code = 400 := by
  have h := C2_accept_exactly_once agentUser assignedLead "" "" 70 100 71 101
    rfl rfl (by decide)
  exact ⟨h.1, h.2.1, h.2.2.2.2.2.1⟩

/-- A rejected lead fixture still linked to the agent of agency 7. -/
def rejectedLead : Lead :=
  { baseLead with
    status := "rejected"
    is_accepted := false
    agent := some agentUser }

/-- C3 counterexample: the claim states an accept request on a lead with
status rejected is refused with a validation error and changes nothing.
On the code, the acceptance validation only checks for status closed and
the is_accepted flag, and reject_lead leaves is_accepted false, so the
assigned agent accepting a rejected lead succeeds with 200, moves it to
accepted and creates a Property row. -/
theorem C3_counterexample_rejected_lead_reaccepted :
    (LeadAcceptanceView.update agentUser rejectedLead "accept" "" 70 100).code =
      200 ∧
    (LeadAcceptanceView.update agentUser rejectedLead "accept" "" 70 100).lead.status =
      "accepted" ∧
    (LeadAcceptanceView.update agentUser rejectedLead "accept" "" 70 100).created.length =
      1 := by
  refine ⟨rfl, rfl, rfl⟩

/-- C3 amended: for every lead whose status is closed, an accept request
by an authorized user (an Admin or the assigned agent) is refused with a
validation error, the lead is unchanged and no Property is created;
leads with status rejected are not protected and can be accepted
again. -/
theorem C3_closed_lead_accept_refused (user : User) (lead : Lead)
    (notes : String) (pid now : Nat)
    (hauth : user.role = "Admin" ∨ lead.agent.map User.id = some user.id)
    (hclosed : lead.status = "closed") :
    (LeadAcceptanceView.update user lead "accept" notes pid now).code = 400 ∧
    (LeadAcceptanceView.update user lead "accept" notes pid now).lead = lead ∧
    (LeadAcceptanceView.update user lead "accept" notes pid now).created = [] := by
  rcases hauth with h | h <;>
    simp [LeadAcceptanceView.update, h, hclosed]

/-- A closed lead fixture still linked to the agent of agency 7. -/
def closedLead : Lead :=
  { baseLead with
    status := "closed"
    agent := some agentUser
    closed_at := some 60 }

/-- C3 witness: the assigned agent attempting to accept a concrete closed
lead is refused with 400 and nothing changes. -/
theorem C3_closed_lead_accept_refused_witness :
    (LeadAcceptanceView.update agentUser closedLead "accept" "" 70 100).code =
      400 ∧
    (LeadAcceptanceView.update agentUser closedLead "accept" "" 70 100).lead =
      closedLead ∧
    (LeadAcceptanceView.update agentUser closedLead "accept" "" 70 100).created =
      [] :=
  C3_closed_lead_accept_refused agentUser closedLead "" 70 100 (Or.inr rfl) rfl

/-- C5: on a lead with a linked property that is not already closed, a
completion request by the assigned agent or an Admin with a valid final
price sets the linked property to status sold with price final_price,
and closes the lead with closed_at set to the request time. -/
theorem C5_completion_closes_lead (user : User) (lead : Lead)
    (final_price : ℚ) (notes : String) (now : Nat) (msg : TwilioOutcome)
    (p : Property)
    (hprop : lead.property = some p)
    (hclosed : lead.status ≠ "closed")
    (hauth : user.role = "Admin" ∨ lead.agent.map User.id = some user.id) :
    (LeadCompletionView.update user lead final_price notes now msg).code = 200 ∧
    (LeadCompletionView.update user lead final_price notes now msg).lead.property =
      some { p with status := "sold", price := final_price } ∧
    (LeadCompletionView.update user lead final_price notes now msg).lead.status =
      "closed" ∧
    (LeadCompletionView.update user lead final_price notes now msg).lead.closed_at =
      some now := by
  rcases hauth with h | h <;>
    simp [LeadCompletionView.update, h, hprop, hclosed]

/-- The placeholder property fixture created by a concrete acceptance. -/
def acceptedProperty : Property :=
  { id := 70, title := "Property for Thabo M",
    description := "Property created from lead 10. ",
    property_type := "residential", status := "available", price := 0,
    address := "To be filled by agent", city := "To be filled by agent",
    state := "To be filled by agent", zip_code := "0000", owner := 2 }

/-- An accepted lead fixture whose property link is set. -/
def acceptedLead : Lead :=
  { baseLead with
    status := "accepted"
    is_accepted := true
    agent := some agentUser
    property := some acceptedProperty
    accepted_at := some 55 }

/-- C5 witness: the assigned agent completes a concrete accepted lead at a
final price of 2500000: the property becomes sold at that price and the
lead is closed at the request time. -/
theorem C5_completion_closes_lead_witness :
    (LeadCompletionView.update agentUser acceptedLead 2500000 "" 200
        .delivered).code = 200 ∧
    (LeadCompletionView.update agentUser acceptedLead 2500000 "" 200
        .delivered).lead.property =
      some { acceptedProperty with status := "sold", price := 2500000 } ∧
    (LeadCompletionView.update agentUser acceptedLead 2500000 "" 200
        .delivered).lead.status = "closed" ∧
    (LeadCompletionView.update agentUser acceptedLead 2500000 "" 200
        .delivered).lead.closed_at = some 200 :=
  C5_completion_closes_lead agentUser acceptedLead 2500000 "" 200 .delivered
    acceptedProperty rfl (by decide) (Or.inr rfl)

/-- C6: a lead submission by an authenticated Spotter with all five
required fields present creates a lead with status new and spotter set
to the submitting user and returns 201; when any required field is
missing or blank the response is 400 carrying the list of missing fields
and no lead is created. -/
theorem C6_submission (user : User) (d : LeadSubmissionData) (i : Nat)
    (m1 m2 : TwilioOutcome)
    (hrole : user.role = "Spotter") :
    (pyTruthyOptStr d.first_name = true → pyTruthyOptStr d.last_name = true →
      pyTruthyOptStr d.phone = true → pyTruthyOptStr d.street_address = true →
      pyTruthyOptStr d.suburb = true →
      (LeadSubmissionView.create user d i m1 m2).code = 201 ∧
      ∃ l : Lead, (LeadSubmissionView.create user d i m1 m2).lead = some l ∧
        l.status = "new" ∧ l.spotter = some user) ∧
    (missingLeadFields d ≠ [] →
      (LeadSubmissionView.create user d i m1 m2).code = 400 ∧
      (LeadSubmissionView.create user d i m1 m2).lead = none ∧
      (LeadSubmissionView.create user d i m1 m2).missing_fields =
        missingLeadFields d) := by
  constructor
  · intro h1 h2 h3 h4 h5
    have hmiss : missingLeadFields d = [] := by
      simp [missingLeadFields, requiredLeadFields, LeadSubmissionData.get,
        h1, h2, h3, h4, h5]
    simp [LeadSubmissionView.create, IsSpotter.has_permission, hrole, hmiss]
  · intro hmiss
    simp [LeadSubmissionView.create, IsSpotter.has_permission, hrole, hmiss]

/-- A complete submission payload fixture. -/
def fullSubmission : LeadSubmissionData :=
  { first_name := some "Thabo", last_name := some "M", email := none,
    phone := some "+27111111111", street_address := some "1 Main Rd",
    suburb := some "Claremont", notes_text := none, preferred_agent := none }

/-- A submission payload fixture with phone absent and suburb blank. -/
def partialSubmission : LeadSubmissionData :=
  { fullSubmission with phone := none, suburb := some "" }

/-- C6 witness: a concrete complete submission by a spotter yields 201 and
a lead with status new owned by the spotter; a concrete submission
without phone and with a blank suburb yields 400 listing exactly those
two fields and creates nothing. -/
theorem C6_submission_witness :
    ((LeadSubmissionView.create spotterUser fullSubmission 10 .delivered
        .delivered).code = 201 ∧
      ∃ l : Lead,
        (LeadSubmissionView.create spotterUser fullSubmission 10 .delivered
            .delivered).lead = some l ∧
        l.status = "new" ∧ l.spotter = some spotterUser) ∧
    ((LeadSubmissionView.create spotterUser partialSubmission 10 .delivered
        .delivered).code = 400 ∧
      (LeadSubmissionView.create spotterUser partialSubmission 10 .delivered
          .delivered).lead = none ∧
      (LeadSubmissionView.create spotterUser partialSubmission 10 .delivered
          .delivered).missing_fields = missingLeadFields partialSubmission) :=
  ⟨(C6_submission spotterUser fullSubmission 10 .delivered .delivered rfl).1
      rfl rfl rfl rfl rfl,
   (C6_submission spotterUser partialSubmission 10 .delivered .delivered rfl).2
      (by decide)⟩

/-- A valid contact form payload fixture. -/
def contactData : ContactData :=
  { name := some "Jane Doe", email := some "jane@example.com",
    message := some "Please call me back." }

/-- C7: for the lead submission, lead assignment, lead completion and lead
failure endpoints, the response code and the stored lead state are
independent of the outcomes of the outbound WhatsApp sends; and for the
contact form, a raising email send after a successful save still yields
the same 201 success response, with the entry kept, as a delivered
email. -/
theorem C7_notification_failure_never_blocks :
    (∀ (user : User) (d : LeadSubmissionData) (i : Nat)
        (m1 m2 m1' m2' : TwilioOutcome),
        (LeadSubmissionView.create user d i m1 m2).code =
          (LeadSubmissionView.create user d i m1' m2').code ∧
        (LeadSubmissionView.create user d i m1 m2).lead =
          (LeadSubmissionView.create user d i m1' m2').lead) ∧
    (∀ (user : User) (lead : Lead) (ag : Option User) (notes : Option String)
        (m1 m2 m1' m2' : TwilioOutcome),
        (LeadAssignmentView.update user lead ag notes m1 m2).code =
          (LeadAssignmentView.update user lead ag notes m1' m2').code ∧
        (LeadAssignmentView.update user lead ag notes m1 m2).lead =
          (LeadAssignmentView.update user lead ag notes m1' m2').lead) ∧
    (∀ (user : User) (lead : Lead) (fp : ℚ) (notes : String) (now : Nat)
        (m m' : TwilioOutcome),
        (LeadCompletionView.update user lead fp notes now m).code =
          (LeadCompletionView.update user lead fp notes now m').code ∧
        (LeadCompletionView.update user lead fp notes now m).lead =
          (LeadCompletionView.update user lead fp notes now m').lead) ∧
    (∀ (user : User) (lead : Lead) (reason notes : String) (now : Nat)
        (m m' : TwilioOutcome),
        (LeadFailureView.update user lead reason notes now m).code =
          (LeadFailureView.update user lead reason notes now m').code ∧
        (LeadFailureView.update user lead reason notes now m).lead =
          (LeadFailureView.update user lead reason notes now m').lead) ∧
    (∀ (d : ContactData) (e : String), contactDataValid d = true →
        ContactEntryView.create d (.sendError e) =
          { code := 201, entry_saved := true } ∧
        ContactEntryView.create d (.sendError e) =
          ContactEntryView.create d .delivered) := by
  refine ⟨?_, ?_, ?_, ?_, ?_⟩
  · intro user d i m1 m2 m1' m2'
    constructor <;> (unfold LeadSubmissionView.create; repeat' split) <;> rfl
  · intro user lead ag notes m1 m2 m1' m2'
    constructor <;> (unfold LeadAssignmentView.update; repeat' split) <;> rfl
  · intro user lead fp notes now m m'
    constructor <;> (unfold LeadCompletionView.update; repeat' split) <;> rfl
  · intro user lead reason notes now m m'
    constructor <;> (unfold LeadFailureView.update; repeat' split) <;> rfl
  · intro d e h
    simp [ContactEntryView.create, h]

/-- C7 witness: on a concrete contact submission the raising email send
still yields the saved 201 response, and on a concrete completion a
failed WhatsApp send leaves the response code unchanged. -/
theorem C7_notification_failure_never_blocks_witness :
    ContactEntryView.create contactData (.sendError "smtp refused") =
      { code := 201, entry_saved := true } ∧
    (LeadCompletionView.update agentUser acceptedLead 2500000 "" 200
        (.sendFailure "twilio down")).code =
      (LeadCompletionView.update agentUser acceptedLead 2500000 "" 200
        .delivered).code := by
  have h := C7_notification_failure_never_blocks
  exact ⟨(h.2.2.2.2 contactData "smtp refused" rfl).1,
         (h.2.2.1 agentUser acceptedLead 2500000 "" 200
            (.sendFailure "twilio down") .delivered).1⟩

/-- C8: a lead assignment request by a non-Admin whose agency differs from
the assigned agency of the lead is refused with 403 and the lead is
unchanged (either by the IsAgencyMember permission class or by the
per-lead agency check); a lead detail request by a Spotter who is not
the spotter of the lead, or by an Agent or Agency_Admin whose agency
differs from the assigned agency of the lead, is refused with 403 (the
detail endpoint never writes). -/
theorem C8_unauthorized_requests_403 (user : User) (lead : Lead) :
    (user.role ≠ "Admin" → user.agency ≠ lead.assigned_agency →
      ∀ (ag : Option User) (notes : Option String) (m1 m2 : TwilioOutcome),
        (LeadAssignmentView.update user lead ag notes m1 m2).code = 403 ∧
        (LeadAssignmentView.update user lead ag notes m1 m2).lead = lead) ∧
    (user.role = "Spotter" → lead.spotter.map User.id ≠ some user.id →
      LeadDetailView.get_object user lead = .error 403) ∧
    ((user.role = "Agent" ∨ user.role = "Agency_Admin") →
      lead.assigned_agency ≠ user.agency →
      LeadDetailView.get_object user lead = .error 403) := by
  refine ⟨?_, ?_, ?_⟩
  · intro hA hAg ag notes m1 m2
    by_cases hp : IsAgencyMember.has_permission user
    · simp [LeadAssignmentView.update, hp, hA, hAg]
    · simp [LeadAssignmentView.update, hp]
  · intro h1 h2
    have hne : user.role ≠ "Admin" := by simp [h1]
    simp [LeadDetailView.get_object, h1, h2]
  · intro h1 h2
    rcases h1 with h | h <;> simp [LeadDetailView.get_object, h, h2]

/-- A spotter user fixture who did not submit the base lead. -/
def otherSpotter : User := { spotterUser with id := 9 }

/-- C8 witness: an agent of agency 8 assigning a lead of agency 7 gets 403
with the lead unchanged; a different spotter and an agent of agency 8
requesting the lead detail each get 403. -/
theorem C8_unauthorized_requests_403_witness :
    (LeadAssignmentView.update otherAgent baseLead (some agentUser) none
        .delivered .delivered).code = 403 ∧
    (LeadAssignmentView.update otherAgent baseLead (some agentUser) none
        .delivered .delivered).lead = baseLead ∧
    LeadDetailView.get_object otherSpotter baseLead = .error 403 ∧
    LeadDetailView.get_object otherAgent baseLead = .error 403 := by
  have h := C8_unauthorized_requests_403 otherAgent baseLead
  have h2 := C8_unauthorized_requests_403 otherSpotter baseLead
  exact ⟨(h.1 (by decide) (by decide) (some agentUser) none .delivered .delivered).1,
         (h.1 (by decide) (by decide) (some agentUser) none .delivered .delivered).2,
         h2.2.1 rfl (by decide),
         h.2.2 (Or.inl rfl) (by decide)⟩
